import Mathlib

/-!
Shallow embedding of the shadowing-backend evaluation pipeline (src/main.py).

The program is a FastAPI service with three pieces of logic:
  * a hard-coded lesson catalog `LESSON_DB` and `find_sentence_by_id`;
  * `transcribe_with_assemblyai`: upload audio, create a transcription job,
    poll its status up to 30 times (sleeping 1s between polls), returning the
    trimmed `text` field on `completed`, raising on `error`, and raising a
    timeout error after 30 unsuccessful polls;
  * `grade_with_deepseek`: one chat-completion POST whose reply content is
    passed through `json.loads` and returned WITHOUT any field validation;
  * `evaluate`: resolve the sentence, reject empty audio, transcribe, grade,
    then set `result["sentence_id"]` and `result["user_text"]` and return.

Network exchanges are modelled as oracles (the environment supplies each
HTTP response, or a failure); everything else is translated directly from
the source.  The number of network calls each operation performs is part of
its result, so that claims about "no network call is made" are statable.
-/

/-- JSON values, as produced by Python's `json` module (numbers restricted to
integers, which is all the program's contract involves). Objects are
association lists with first-key-wins lookup, matching `dict` observations. -/
inductive JValue where
  | null : JValue
  | bool : Bool → JValue
  | num : Int → JValue
  | str : String → JValue
  | arr : List JValue → JValue
  | obj : List (String × JValue) → JValue
deriving Repr

/-- Python `dict` lookup: value at the first matching key, if any
(`d.get(k)` / `d[k]` distinction is handled at each use site). -/
def dictGet : List (String × JValue) → String → Option JValue
  | [], _ => none
  | (k', v') :: rest, k => if k' = k then some v' else dictGet rest k

/-- Python `d[k] = v`: overwrite the value at `k` in place if the key is
present, otherwise append the new binding. -/
def dictSet : List (String × JValue) → String → JValue → List (String × JValue)
  | [], k, v => [(k, v)]
  | (k', v') :: rest, k, v =>
    if k' = k then (k, v) :: rest else (k', v') :: dictSet rest k v

/-- Python `str.strip()` with no argument: remove leading and trailing
whitespace characters. -/
def pyStrip (s : String) : String :=
  String.mk
    (((s.data.dropWhile Char.isWhitespace).reverse.dropWhile Char.isWhitespace).reverse)

/-- `data[k]` / `data.get(k)` on a parsed JSON value: a lookup that succeeds
only when the value is an object containing the key (on a non-object the
Python subscript raises, which callers model as a failure). -/
def jGet (v : JValue) (k : String) : Option JValue :=
  match v with
  | JValue.obj kvs => dictGet kvs k
  | _ => none

/-- One reference sentence of the hard-coded catalog (src/main.py lines 27-41). -/
structure Sentence where
  id : String
  text : String
  translation : String
deriving Repr, DecidableEq

/-- One lesson of the catalog (src/main.py lines 21-44). -/
structure Lesson where
  lesson_id : String
  title : String
  audio_url : String
  sentences : List Sentence
deriving Repr

/-- The hard-coded lesson database `LESSON_DB` (src/main.py lines 21-44). -/
def LESSON_DB : List Lesson :=
  [{ lesson_id := "intro_001"
     title := "自我介绍 · 入门"
     audio_url := ""
     sentences :=
       [{ id := "s1", text := "Hola, soy Ana.", translation := "你好，我是 Ana。" },
        { id := "s2",
          text := "Hoy vamos a practicar algunas frases básicas en español.",
          translation := "今天我们来练习一些基础西班牙语句子。" },
        { id := "s3",
          text := "Primero, repite conmigo: ¿Cómo te llamas? Me llamo Ana.",
          translation := "首先，跟我重复：你叫什么名字？我叫 Ana。" }] }]

/-- `find_sentence_by_id` (src/main.py lines 55-60): scan every lesson's
sentences in order, returning the first sentence whose id matches. -/
def find_sentence_by_id (sentence_id : String) : Option Sentence :=
  (LESSON_DB.flatMap Lesson.sentences).find? (fun s => s.id == sentence_id)

/-- Failure modes of `transcribe_with_assemblyai`: the missing-key
RuntimeError (line 75), an HTTP-level failure (`raise_for_status` or the
request itself), a malformed provider payload (a KeyError on
`upload_url`/`id`, or `.strip()` applied to a non-string `text`), the
provider-reported `status == "error"` RuntimeError (line 124), and the
30-poll timeout RuntimeError (line 128). -/
inductive TError where
  | missingKey : TError
  | httpError : TError
  | badPayload : TError
  | providerError : TError
  | timeout : TError
deriving Repr, DecidableEq

/-- The AssemblyAI network environment for one `transcribe_with_assemblyai`
call: the JSON body of the upload response, of the job-creation response,
and of each status poll (indexed from 0); `Except.error` is an HTTP failure. -/
structure AAIEnv where
  uploadResp : Except Unit JValue
  createResp : Except Unit JValue
  pollResp : Nat → Except Unit JValue

/-- The polling loop of `transcribe_with_assemblyai` (src/main.py lines
113-128): up to `remaining` further polls, the next one having index `i`,
with `calls` network calls already made.  On each poll: HTTP failure raises;
`status == "completed"` returns `data.get("text", "").strip()`;
`status == "error"` raises; anything else sleeps and polls again; running
out of the 30 attempts raises the timeout error.  The result is paired with
the total number of network calls performed. -/
def pollLoop (polls : Nat → Except Unit JValue) :
    Nat → Nat → Nat → Except TError String × Nat
  | _, 0, calls => (Except.error TError.timeout, calls)
  | i, r + 1, calls =>
    match polls i with
    | Except.error _ => (Except.error TError.httpError, calls + 1)
    | Except.ok data =>
      match jGet data "status" with
      | some sv =>
        match sv with
        | JValue.str s =>
          if s = "completed" then
            match (jGet data "text").getD (JValue.str "") with
            | JValue.str t => (Except.ok (pyStrip t), calls + 1)
            | _ => (Except.error TError.badPayload, calls + 1)
          else if s = "error" then (Except.error TError.providerError, calls + 1)
          else pollLoop polls (i + 1) r (calls + 1)
        | _ => pollLoop polls (i + 1) r (calls + 1)
      | none => pollLoop polls (i + 1) r (calls + 1)

/-- `transcribe_with_assemblyai` (src/main.py lines 73-128): fail at once if
the API key is unset; otherwise upload the audio (network call 1, requiring
an `upload_url` field), create the transcription job (network call 2,
requiring an `id` field), then poll the job status up to 30 times.  Returns
the transcript (or failure) together with the number of network calls made. -/
def transcribe_with_assemblyai (apiKey : Option String) (env : AAIEnv)
    (audio_bytes : List Nat) : Except TError String × Nat :=
  match apiKey with
  | none => (Except.error TError.missingKey, 0)
  | some _ =>
    match env.uploadResp with
    | Except.error _ => (Except.error TError.httpError, 1)
    | Except.ok up =>
      match jGet up "upload_url" with
      | none => (Except.error TError.badPayload, 1)
      | some _ =>
        match env.createResp with
        | Except.error _ => (Except.error TError.httpError, 2)
        | Except.ok cr =>
          match jGet cr "id" with
          | none => (Except.error TError.badPayload, 2)
          | some _ => pollLoop env.pollResp 0 30 2

/-- What the DeepSeek backend does with one grading request, abstracting the
single POST of `grade_with_deepseek` (src/main.py lines 169-176) together
with the two library steps applied to its reply: `httpError` models a failed
request or `raise_for_status`; `badShape` models a KeyError/IndexError while
extracting `data["choices"][0]["message"]["content"]`; `badJson` models
`json.loads(content)` raising; `parsed v` models `json.loads(content) = v`. -/
inductive DSReply where
  | httpError : DSReply
  | badShape : DSReply
  | badJson : DSReply
  | parsed : JValue → DSReply

/-- Failure modes of `grade_with_deepseek`: the missing-key RuntimeError
(line 134), an HTTP failure, a reply without the expected
`choices[0].message.content` path, and reply content that is not valid JSON. -/
inductive GError where
  | missingKey : GError
  | httpError : GError
  | badShape : GError
  | parseError : GError
deriving Repr, DecidableEq

/-- `grade_with_deepseek` (src/main.py lines 132-176): fail at once if the
API key is unset; otherwise make the single chat-completion call (the oracle
sees the two prompt inputs) and return `json.loads` of the reply content.
The parsed value is returned as-is: the source performs NO validation of the
judgment's fields.  Paired with the number of network calls made. -/
def grade_with_deepseek (apiKey : Option String)
    (oracle : String → String → DSReply) (ref_text user_text : String) :
    Except GError JValue × Nat :=
  match apiKey with
  | none => (Except.error GError.missingKey, 0)
  | some _ =>
    match oracle ref_text user_text with
    | DSReply.httpError => (Except.error GError.httpError, 1)
    | DSReply.badShape => (Except.error GError.badShape, 1)
    | DSReply.badJson => (Except.error GError.parseError, 1)
    | DSReply.parsed v => (Except.ok v, 1)

/-- The outward HTTP error taxonomy of `evaluate` (src/main.py lines
186-212): 404 sentence not found, 400 empty audio, 500 transcription
failed, 500 grading failed, and an uncaught TypeError (also a 500) when the
parsed judgment is not a dict and line 210's item assignment raises. -/
inductive EvalError where
  | notFound : EvalError
  | invalidInput : EvalError
  | transcriptionFailed : EvalError
  | gradingFailed : EvalError
  | uncaught : EvalError
deriving Repr, DecidableEq

/-- Observable side effects of one `evaluate` call: whether each provider
function was invoked, how many network calls each made, and the `user_text`
argument handed to the grader (none if the grader was never invoked). -/
structure EvalTrace where
  transcriberCalled : Bool
  transcriberNetCalls : Nat
  graderCalled : Bool
  graderNetCalls : Nat
  graderUserText : Option String
deriving Repr, DecidableEq

/-- The environment of one `evaluate` call: both configured API keys and
both provider oracles. -/
structure Env where
  aaiKey : Option String
  dsKey : Option String
  aai : AAIEnv
  ds : String → String → DSReply

/-- The final merge of `evaluate` (src/main.py lines 210-211): the two
Python item assignments `eval_result["sentence_id"] = sentence_id` and
`eval_result["user_text"] = user_text`, applied in that order to the parsed
judgment dict. -/
def mergedResponse (kvs : List (String × JValue)) (sentence_id user_text : String) :
    List (String × JValue) :=
  dictSet (dictSet kvs "sentence_id" (JValue.str sentence_id))
    "user_text" (JValue.str user_text)

/-- `evaluate` (src/main.py lines 180-212): resolve the sentence (404 if
absent), reject empty audio (400), transcribe (any failure becomes a 500
"Transcription failed"), grade (any failure becomes a 500 "Grading failed"),
then execute `eval_result["sentence_id"] = sentence_id` and
`eval_result["user_text"] = user_text` and return the result.  The second
component records which providers were invoked and with what. -/
def evaluate (env : Env) (sentence_id : String) (audio_bytes : List Nat) :
    Except EvalError JValue × EvalTrace :=
  match find_sentence_by_id sentence_id with
  | none => (Except.error EvalError.notFound, ⟨false, 0, false, 0, none⟩)
  | some ref =>
    if audio_bytes = [] then
      (Except.error EvalError.invalidInput, ⟨false, 0, false, 0, none⟩)
    else
      match transcribe_with_assemblyai env.aaiKey env.aai audio_bytes with
      | (Except.error _, tc) =>
        (Except.error EvalError.transcriptionFailed, ⟨true, tc, false, 0, none⟩)
      | (Except.ok user_text, tc) =>
        match grade_with_deepseek env.dsKey env.ds ref.text user_text with
        | (Except.error _, gc) =>
          (Except.error EvalError.gradingFailed,
           ⟨true, tc, true, gc, some user_text⟩)
        | (Except.ok (JValue.obj kvs), gc) =>
          (Except.ok (JValue.obj (mergedResponse kvs sentence_id user_text)),
           ⟨true, tc, true, gc, some user_text⟩)
        | (Except.ok _, gc) =>
          (Except.error EvalError.uncaught, ⟨true, tc, true, gc, some user_text⟩)

/-! ### Dictionary lemmas -/

/-- After `d[k] = v`, looking up `k` yields `v`. -/
lemma dictGet_dictSet_self (d : List (String × JValue)) (k : String) (v : JValue) :
    dictGet (dictSet d k v) k = some v := by
  induction d with
  | nil => simp [dictGet, dictSet]
  | cons hd tl ih =>
    obtain ⟨k0, v0⟩ := hd
    by_cases h0 : k0 = k
    · simp [dictSet, dictGet, h0]
    · simp [dictSet, dictGet, h0, ih]

/-- After `d[k] = v`, looking up any other key is unchanged. -/
lemma dictGet_dictSet_ne (d : List (String × JValue)) (k k' : String) (v : JValue)
    (h : k' ≠ k) : dictGet (dictSet d k v) k' = dictGet d k' := by
  have hkk : ¬(k = k') := fun hk => h hk.symm
  induction d with
  | nil => simp [dictGet, dictSet, hkk]
  | cons hd tl ih =>
    obtain ⟨k0, v0⟩ := hd
    by_cases h0 : k0 = k
    · subst h0
      simp [dictSet, dictGet, hkk]
    · simp [dictSet, dictGet, h0, ih]

/-- The merged response holds the request's `sentence_id`. -/
lemma mergedResponse_sentence_id (kvs : List (String × JValue)) (sid t : String) :
    dictGet (mergedResponse kvs sid t) "sentence_id" = some (JValue.str sid) := by
  unfold mergedResponse
  rw [dictGet_dictSet_ne _ _ _ _ (by decide)]
  exact dictGet_dictSet_self _ _ _

/-- The merged response holds the transcript as `user_text`. -/
lemma mergedResponse_user_text (kvs : List (String × JValue)) (sid t : String) :
    dictGet (mergedResponse kvs sid t) "user_text" = some (JValue.str t) :=
  dictGet_dictSet_self _ _ _

/-- The merge leaves every other key of the judgment untouched. -/
lemma mergedResponse_other (kvs : List (String × JValue)) (sid t k : String)
    (h1 : k ≠ "sentence_id") (h2 : k ≠ "user_text") :
    dictGet (mergedResponse kvs sid t) k = dictGet kvs k := by
  unfold mergedResponse
  rw [dictGet_dictSet_ne _ _ _ _ h2, dictGet_dictSet_ne _ _ _ _ h1]

/-! ### Polling-loop lemmas -/

/-- A status poll that answers but reports neither `completed` nor `error`:
the loop must keep polling past it. -/
def nonTerminalPoll (r : Except Unit JValue) : Prop :=
  ∃ data, r = Except.ok data ∧
    ∀ s, jGet data "status" = some (JValue.str s) → s ≠ "completed" ∧ s ≠ "error"

/-- If every remaining poll is non-terminal, the loop performs exactly the
remaining polls and ends in the timeout error. -/
lemma pollLoop_timeout (polls : Nat → Except Unit JValue) :
    ∀ (rem i calls : Nat),
      (∀ j, j < rem → nonTerminalPoll (polls (i + j))) →
      pollLoop polls i rem calls = (Except.error TError.timeout, calls + rem) := by
  intro rem
  induction rem with
  | zero => intro i calls _; rfl
  | succ r ih =>
    intro i calls h
    obtain ⟨data, hok, hst⟩ := h 0 (Nat.succ_pos r)
    rw [Nat.add_zero] at hok
    have hrec : pollLoop polls (i + 1) r (calls + 1)
        = (Except.error TError.timeout, calls + (r + 1)) := by
      have := ih (i + 1) (calls + 1) (by
        intro j hj
        have hh := h (j + 1) (Nat.succ_lt_succ hj)
        rwa [show i + (j + 1) = i + 1 + j by omega] at hh)
      rwa [show calls + 1 + r = calls + (r + 1) by omega] at this
    simp only [pollLoop, hok]
    cases hs : jGet data "status" with
    | none => exact hrec
    | some sv =>
      cases sv with
      | str s =>
        obtain ⟨h1, h2⟩ := hst s hs
        have hred : (if s = "completed" then
              (match (jGet data "text").getD (JValue.str "") with
                | JValue.str t => (Except.ok (pyStrip t), calls + 1)
                | _ => (Except.error TError.badPayload, calls + 1))
            else if s = "error" then (Except.error TError.providerError, calls + 1)
            else pollLoop polls (i + 1) r (calls + 1))
            = (Except.error TError.timeout, calls + (r + 1)) := by
          rw [if_neg h1, if_neg h2]
          exact hrec
        exact hred
      | null => exact hrec
      | bool b => exact hrec
      | num n => exact hrec
      | arr a => exact hrec
      | obj o => exact hrec

/-- A poll whose body reports `completed` with a string `text` field makes
the loop return that text, trimmed, after this one extra network call. -/
lemma pollLoop_completed_text (polls : Nat → Except Unit JValue)
    (i r calls : Nat) (data : JValue) (t : String)
    (hok : polls i = Except.ok data)
    (hst : jGet data "status" = some (JValue.str "completed"))
    (htx : jGet data "text" = some (JValue.str t)) :
    pollLoop polls i (r + 1) calls = (Except.ok (pyStrip t), calls + 1) := by
  simp [pollLoop, hok, hst, htx]

/-- A poll reporting `completed` with no `text` field makes the loop return
the trim of the default `""`. -/
lemma pollLoop_completed_missing_text (polls : Nat → Except Unit JValue)
    (i r calls : Nat) (data : JValue)
    (hok : polls i = Except.ok data)
    (hst : jGet data "status" = some (JValue.str "completed"))
    (htx : jGet data "text" = none) :
    pollLoop polls i (r + 1) calls = (Except.ok (pyStrip ""), calls + 1) := by
  simp [pollLoop, hok, hst, htx]

/-- The upload and job-creation exchanges succeed with well-formed bodies. -/
def setupOk (env : AAIEnv) : Prop :=
  (∃ u, env.uploadResp = Except.ok u ∧ (jGet u "upload_url").isSome) ∧
  (∃ c, env.createResp = Except.ok c ∧ (jGet c "id").isSome)

/-- With a configured key and successful setup exchanges, the transcriber is
exactly its polling loop, entered with 2 network calls already made. -/
lemma transcribe_eq_pollLoop (k : String) (env : AAIEnv) (audio_bytes : List Nat)
    (h : setupOk env) :
    transcribe_with_assemblyai (some k) env audio_bytes = pollLoop env.pollResp 0 30 2 := by
  obtain ⟨⟨u, hu, hu2⟩, ⟨c, hc, hc2⟩⟩ := h
  obtain ⟨uv, huv⟩ := Option.isSome_iff_exists.mp hu2
  obtain ⟨cv, hcv⟩ := Option.isSome_iff_exists.mp hc2
  simp only [transcribe_with_assemblyai, hu, huv, hc, hcv]

/-- On success of every stage, `evaluate` returns the merged response and a
trace showing both providers invoked, the grader on the transcript. -/
lemma evaluate_success (env : Env) (sentence_id user_text : String) (ref : Sentence)
    (audio_bytes : List Nat) (kvs : List (String × JValue)) (tc gc : Nat)
    (href : find_sentence_by_id sentence_id = some ref)
    (haudio : audio_bytes ≠ [])
    (htr : transcribe_with_assemblyai env.aaiKey env.aai audio_bytes
      = (Except.ok user_text, tc))
    (hgr : grade_with_deepseek env.dsKey env.ds ref.text user_text
      = (Except.ok (JValue.obj kvs), gc)) :
    evaluate env sentence_id audio_bytes
      = (Except.ok (JValue.obj (mergedResponse kvs sentence_id user_text)),
         ⟨true, tc, true, gc, some user_text⟩) := by
  simp only [evaluate, href, htr, hgr, if_neg haudio]

/-! ### Concrete environments for witnesses and counterexamples -/

/-- A successful upload response carrying an `upload_url`. -/
def okUpload : Except Unit JValue :=
  Except.ok (JValue.obj [("upload_url", JValue.str "https://cdn/upload/1")])

/-- A successful job-creation response carrying an `id`. -/
def okCreate : Except Unit JValue :=
  Except.ok (JValue.obj [("id", JValue.str "job-1")])

/-- The reference sentence `s1` of `LESSON_DB`. -/
def refS1 : Sentence :=
  { id := "s1", text := "Hola, soy Ana.", translation := "你好，我是 Ana。" }

/-- An AssemblyAI environment whose first poll completes with the transcript
`" Hola soy Ana "` (spaces exercise the trimming). -/
def happyAAI : AAIEnv :=
  { uploadResp := okUpload, createResp := okCreate,
    pollResp := fun _ => Except.ok (JValue.obj
      [("status", JValue.str "completed"), ("text", JValue.str " Hola soy Ana ")]) }

/-- The judgment of the spec's happy-path scenario: a complete, well-typed
grading of `"Hola soy Ana"` against sentence `s1`. -/
def judgment88 : List (String × JValue) :=
  [("overall_score", JValue.num 88), ("accuracy", JValue.str "中"),
   ("fluency", JValue.str "高"), ("integrity", JValue.str "高"),
   ("missing_words", JValue.arr []), ("mispronounced_words", JValue.arr []),
   ("suggestions", JValue.arr
     [JValue.str "建议一", JValue.str "建议二", JValue.str "建议三"])]

/-- Fully successful environment: both keys set, transcription completes on
the first poll, grading replies with `judgment88`. -/
def happyEnv : Env :=
  { aaiKey := some "aai-key", dsKey := some "ds-key", aai := happyAAI,
    ds := fun _ _ => DSReply.parsed (JValue.obj judgment88) }

/-- Like `happyEnv`, but the grading backend replies with the empty JSON
object: syntactically valid JSON missing every required judgment field. -/
def missingFieldsEnv : Env :=
  { happyEnv with ds := fun _ _ => DSReply.parsed (JValue.obj []) }

/-- A judgment that is well-typed except that `overall_score` is 150,
outside the contracted range [0, 100]. -/
def judgment150 : List (String × JValue) :=
  [("overall_score", JValue.num 150), ("accuracy", JValue.str "高"),
   ("fluency", JValue.str "高"), ("integrity", JValue.str "高"),
   ("missing_words", JValue.arr []), ("mispronounced_words", JValue.arr []),
   ("suggestions", JValue.arr
     [JValue.str "建议一", JValue.str "建议二", JValue.str "建议三"])]

/-- Like `happyEnv`, but the grading backend replies with `judgment150`. -/
def outOfRangeEnv : Env :=
  { happyEnv with ds := fun _ _ => DSReply.parsed (JValue.obj judgment150) }

/-- A judgment that also smuggles in its own `sentence_id` and `user_text`. -/
def evilJudgment : List (String × JValue) :=
  judgment88 ++
    [("sentence_id", JValue.str "EVIL"), ("user_text", JValue.str "EVIL")]

/-- Like `happyEnv`, but the grading backend replies with `evilJudgment`. -/
def evilEnv : Env :=
  { happyEnv with ds := fun _ _ => DSReply.parsed (JValue.obj evilJudgment) }

/-- An AssemblyAI environment where every status poll answers `processing`:
never terminal. -/
def pendingAAI : AAIEnv :=
  { uploadResp := okUpload, createResp := okCreate,
    pollResp := fun _ =>
      Except.ok (JValue.obj [("status", JValue.str "processing")]) }

/-- An AssemblyAI environment whose first poll completes with a transcript
of pure whitespace (silence), trimming to the empty string. -/
def silentAAI : AAIEnv :=
  { uploadResp := okUpload, createResp := okCreate,
    pollResp := fun _ => Except.ok (JValue.obj
      [("status", JValue.str "completed"), ("text", JValue.str "   ")]) }

/-- `happyEnv` with the silent transcription environment. -/
def silentEnv : Env := { happyEnv with aai := silentAAI }

/-- An AssemblyAI environment whose first poll completes WITHOUT any `text`
field in the payload. -/
def noTextAAI : AAIEnv :=
  { uploadResp := okUpload, createResp := okCreate,
    pollResp := fun _ =>
      Except.ok (JValue.obj [("status", JValue.str "completed")]) }

/-- `happyEnv` with the AssemblyAI key unset. -/
def noAaiKeyEnv : Env := { happyEnv with aaiKey := none }

/-- `happyEnv` with the DeepSeek key unset. -/
def noDsKeyEnv : Env := { happyEnv with dsKey := none }

/-! ### Claim theorems -/

/-- C4: with an unknown `sentence_id`, `evaluate` fails with NotFound and
neither the Transcriber nor the Grader is invoked — zero network calls to
either provider. -/
theorem unknown_sentence_notFound_before_network (env : Env) (sentence_id : String)
    (audio_bytes : List Nat) (h : find_sentence_by_id sentence_id = none) :
    evaluate env sentence_id audio_bytes
      = (Except.error EvalError.notFound, ⟨false, 0, false, 0, none⟩) := by
  simp only [evaluate, h]

/-- C4 witness: the unknown id `"s99"` on a fully working environment. -/
theorem unknown_sentence_notFound_before_network_witness :
    evaluate happyEnv "s99" [1]
      = (Except.error EvalError.notFound, ⟨false, 0, false, 0, none⟩) :=
  unknown_sentence_notFound_before_network happyEnv "s99" [1] rfl

/-- C2 (amended): with empty audio bytes, `evaluate` fails with InvalidInput
(no provider invoked) PROVIDED the `sentence_id` resolves; the sentence
lookup precedes the audio check, so an unknown id fails with NotFound
instead. -/
theorem empty_audio_invalidInput_when_sentence_resolves (env : Env)
    (sentence_id : String) (ref : Sentence)
    (h : find_sentence_by_id sentence_id = some ref) :
    evaluate env sentence_id []
      = (Except.error EvalError.invalidInput, ⟨false, 0, false, 0, none⟩) := by
  simp [evaluate, h]

/-- C2 witness: empty audio on the valid sentence `"s1"`. -/
theorem empty_audio_invalidInput_when_sentence_resolves_witness :
    evaluate happyEnv "s1" []
      = (Except.error EvalError.invalidInput, ⟨false, 0, false, 0, none⟩) :=
  empty_audio_invalidInput_when_sentence_resolves happyEnv "s1" refS1 rfl

/-- C2 counterexample: with empty audio and the unknown `sentence_id`
`"s99"`, `evaluate` fails with NotFound, not InvalidInput — refuting the
claim's "regardless of whether the given sentence_id resolves". -/
theorem empty_audio_unknown_sentence_cex :
    (evaluate happyEnv "s99" []).1 = Except.error EvalError.notFound
    ∧ EvalError.notFound ≠ EvalError.invalidInput :=
  ⟨rfl, by decide⟩

/-- C5: if 30 polls all answer but none reports `completed` or `error`, the
transcriber terminates with the timeout error after exactly 30 polls (32
network calls counting upload and job creation) — it does not poll further. -/
theorem polling_timeout_after_30_polls (k : String) (env : AAIEnv)
    (audio_bytes : List Nat) (hsetup : setupOk env)
    (hpoll : ∀ j, j < 30 → nonTerminalPoll (env.pollResp j)) :
    transcribe_with_assemblyai (some k) env audio_bytes
      = (Except.error TError.timeout, 32) := by
  rw [transcribe_eq_pollLoop k env audio_bytes hsetup]
  have h := pollLoop_timeout env.pollResp 30 0 2 (by
    intro j hj
    rw [Nat.zero_add]
    exact hpoll j hj)
  simpa using h

/-- C5 witness: an environment whose every poll reports `processing`. -/
theorem polling_timeout_after_30_polls_witness :
    transcribe_with_assemblyai (some "aai-key") pendingAAI [1]
      = (Except.error TError.timeout, 32) :=
  polling_timeout_after_30_polls "aai-key" pendingAAI [1]
    ⟨⟨_, rfl, rfl⟩, ⟨_, rfl, rfl⟩⟩
    (fun _ _ => ⟨JValue.obj [("status", JValue.str "processing")], rfl, by
      intro s hs
      simp [jGet, dictGet] at hs
      subst hs
      exact ⟨by decide, by decide⟩⟩)

/-- C10: a poll reporting `completed` with no `text` field makes the
transcriber return the empty string (the trimmed default), not an error. -/
theorem completed_missing_text_returns_empty (k : String) (env : AAIEnv)
    (audio_bytes : List Nat) (data : JValue) (hsetup : setupOk env)
    (h0 : env.pollResp 0 = Except.ok data)
    (hst : jGet data "status" = some (JValue.str "completed"))
    (htx : jGet data "text" = none) :
    transcribe_with_assemblyai (some k) env audio_bytes = (Except.ok "", 3) := by
  rw [transcribe_eq_pollLoop k env audio_bytes hsetup]
  exact pollLoop_completed_missing_text env.pollResp 0 29 2 data h0 hst htx

/-- C10 witness: the first poll completes without a `text` field. -/
theorem completed_missing_text_returns_empty_witness :
    transcribe_with_assemblyai (some "aai-key") noTextAAI [1] = (Except.ok "", 3) :=
  completed_missing_text_returns_empty "aai-key" noTextAAI [1]
    (JValue.obj [("status", JValue.str "completed")])
    ⟨⟨_, rfl, rfl⟩, ⟨_, rfl, rfl⟩⟩ rfl rfl rfl

/-- C1 counterexample: a grading reply parsing to the empty JSON object —
missing every required judgment field — is NOT rejected: `grade_with_deepseek`
returns it successfully, and `evaluate` releases the merged result to the
caller with `suggestions` (and every other judgment field) absent. -/
theorem grade_missing_fields_released_cex :
    grade_with_deepseek (some "ds-key") (fun _ _ => DSReply.parsed (JValue.obj []))
        "Hola, soy Ana." "Hola soy Ana"
      = (Except.ok (JValue.obj []), 1)
    ∧ (evaluate missingFieldsEnv "s1" [1]).1
      = Except.ok (JValue.obj
          [("sentence_id", JValue.str "s1"), ("user_text", JValue.str "Hola soy Ana")])
    ∧ jGet (JValue.obj
          [("sentence_id", JValue.str "s1"), ("user_text", JValue.str "Hola soy Ana")])
        "suggestions" = none :=
  ⟨rfl, rfl, rfl⟩

/-- C1 (amended): the grading step fails only when the backend call errors,
the reply lacks the `choices[0].message.content` path, or the content is not
valid JSON; any reply that parses IS returned as the judgment, with no check
that required fields are present or well-typed, and `evaluate` releases it. -/
theorem grade_returns_parsed_reply_unvalidated (k : String)
    (oracle : String → String → DSReply) (ref_text user_text : String) (v : JValue) :
    (oracle ref_text user_text = DSReply.parsed v →
       grade_with_deepseek (some k) oracle ref_text user_text = (Except.ok v, 1))
    ∧ (oracle ref_text user_text = DSReply.badJson →
       grade_with_deepseek (some k) oracle ref_text user_text
         = (Except.error GError.parseError, 1)) := by
  constructor <;> intro h <;> simp [grade_with_deepseek, h]

/-- C1 amended-claim witness: both branches at concrete inputs. -/
theorem grade_returns_parsed_reply_unvalidated_witness :
    grade_with_deepseek (some "ds-key") (fun _ _ => DSReply.parsed (JValue.obj []))
        "Hola, soy Ana." "" = (Except.ok (JValue.obj []), 1)
    ∧ grade_with_deepseek (some "ds-key") (fun _ _ => DSReply.badJson)
        "Hola, soy Ana." "" = (Except.error GError.parseError, 1) :=
  ⟨(grade_returns_parsed_reply_unvalidated "ds-key"
      (fun _ _ => DSReply.parsed (JValue.obj [])) "Hola, soy Ana." ""
      (JValue.obj [])).1 rfl,
   (grade_returns_parsed_reply_unvalidated "ds-key"
      (fun _ _ => DSReply.badJson) "Hola, soy Ana." ""
      (JValue.obj [])).2 rfl⟩

/-- C3 counterexample: a grading reply whose `overall_score` is 150 grades
"successfully" and `evaluate` returns it unchanged: the response's
`overall_score` is 150, outside [0, 100]. -/
theorem overall_score_out_of_range_cex :
    (evaluate outOfRangeEnv "s1" [1]).1
      = Except.ok (JValue.obj (mergedResponse judgment150 "s1" "Hola soy Ana"))
    ∧ dictGet (mergedResponse judgment150 "s1" "Hola soy Ana") "overall_score"
      = some (JValue.num 150)
    ∧ ¬((150 : Int) ≤ 100) :=
  ⟨rfl, rfl, by decide⟩

/-- C3 (amended): on a fully successful evaluation the response's
`sentence_id` equals the input, and its `overall_score` is exactly the
grader-supplied `overall_score`, with no range check — it lies in [0, 100]
precisely when the grader's value does. -/
theorem response_sentence_id_and_score_passthrough (env : Env)
    (sentence_id user_text : String) (ref : Sentence) (audio_bytes : List Nat)
    (kvs : List (String × JValue)) (tc gc : Nat)
    (href : find_sentence_by_id sentence_id = some ref)
    (haudio : audio_bytes ≠ [])
    (htr : transcribe_with_assemblyai env.aaiKey env.aai audio_bytes
      = (Except.ok user_text, tc))
    (hgr : grade_with_deepseek env.dsKey env.ds ref.text user_text
      = (Except.ok (JValue.obj kvs), gc)) :
    (evaluate env sentence_id audio_bytes).1
      = Except.ok (JValue.obj (mergedResponse kvs sentence_id user_text))
    ∧ dictGet (mergedResponse kvs sentence_id user_text) "sentence_id"
      = some (JValue.str sentence_id)
    ∧ dictGet (mergedResponse kvs sentence_id user_text) "overall_score"
      = dictGet kvs "overall_score"
    ∧ (∀ n : Int, dictGet kvs "overall_score" = some (JValue.num n) →
        0 ≤ n → n ≤ 100 →
        dictGet (mergedResponse kvs sentence_id user_text) "overall_score"
          = some (JValue.num n) ∧ 0 ≤ n ∧ n ≤ 100) := by
  have he := evaluate_success env sentence_id user_text ref audio_bytes kvs tc gc
    href haudio htr hgr
  have hpass := mergedResponse_other kvs sentence_id user_text "overall_score"
    (by decide) (by decide)
  refine ⟨by rw [he], mergedResponse_sentence_id kvs sentence_id user_text,
    hpass, ?_⟩
  intro n hn h0 h1
  exact ⟨by rw [hpass, hn], h0, h1⟩

/-- C3 amended-claim witness: the happy-path scenario, score 88 ∈ [0, 100]. -/
theorem response_sentence_id_and_score_passthrough_witness :
    (evaluate happyEnv "s1" [1]).1
      = Except.ok (JValue.obj (mergedResponse judgment88 "s1" "Hola soy Ana"))
    ∧ dictGet (mergedResponse judgment88 "s1" "Hola soy Ana") "sentence_id"
      = some (JValue.str "s1")
    ∧ (dictGet (mergedResponse judgment88 "s1" "Hola soy Ana") "overall_score"
        = some (JValue.num 88) ∧ (0 : Int) ≤ 88 ∧ (88 : Int) ≤ 100) := by
  have h := response_sentence_id_and_score_passthrough happyEnv "s1" "Hola soy Ana"
    refS1 [1] judgment88 3 1 rfl (by decide) rfl rfl
  exact ⟨h.1, h.2.1, h.2.2.2 88 rfl (by decide) (by decide)⟩

/-- C6: on a successful evaluation the response is exactly the grader's
judgment with `sentence_id` and `user_text` set: every key other than those
two keeps its judgment value (none modified, none dropped), and the two
added keys hold the request's sentence id and the transcript. -/
theorem merge_extends_judgment_unchanged (env : Env)
    (sentence_id user_text : String) (ref : Sentence) (audio_bytes : List Nat)
    (kvs : List (String × JValue)) (tc gc : Nat)
    (href : find_sentence_by_id sentence_id = some ref)
    (haudio : audio_bytes ≠ [])
    (htr : transcribe_with_assemblyai env.aaiKey env.aai audio_bytes
      = (Except.ok user_text, tc))
    (hgr : grade_with_deepseek env.dsKey env.ds ref.text user_text
      = (Except.ok (JValue.obj kvs), gc)) :
    (evaluate env sentence_id audio_bytes).1
      = Except.ok (JValue.obj (mergedResponse kvs sentence_id user_text))
    ∧ (∀ k, k ≠ "sentence_id" → k ≠ "user_text" →
        dictGet (mergedResponse kvs sentence_id user_text) k = dictGet kvs k)
    ∧ dictGet (mergedResponse kvs sentence_id user_text) "sentence_id"
      = some (JValue.str sentence_id)
    ∧ dictGet (mergedResponse kvs sentence_id user_text) "user_text"
      = some (JValue.str user_text) := by
  have he := evaluate_success env sentence_id user_text ref audio_bytes kvs tc gc
    href haudio htr hgr
  exact ⟨by rw [he],
    fun k h1 h2 => mergedResponse_other kvs sentence_id user_text k h1 h2,
    mergedResponse_sentence_id kvs sentence_id user_text,
    mergedResponse_user_text kvs sentence_id user_text⟩

/-- C6 witness: the spec's happy-path scenario, checking the `suggestions`
field pass through unchanged alongside the two added keys. -/
theorem merge_extends_judgment_unchanged_witness :
    (evaluate happyEnv "s1" [1]).1
      = Except.ok (JValue.obj (mergedResponse judgment88 "s1" "Hola soy Ana"))
    ∧ dictGet (mergedResponse judgment88 "s1" "Hola soy Ana") "suggestions"
      = dictGet judgment88 "suggestions"
    ∧ dictGet (mergedResponse judgment88 "s1" "Hola soy Ana") "sentence_id"
      = some (JValue.str "s1")
    ∧ dictGet (mergedResponse judgment88 "s1" "Hola soy Ana") "user_text"
      = some (JValue.str "Hola soy Ana") := by
  have h := merge_extends_judgment_unchanged happyEnv "s1" "Hola soy Ana" refS1 [1]
    judgment88 3 1 rfl (by decide) rfl rfl
  exact ⟨h.1, h.2.1 "suggestions" (by decide) (by decide), h.2.2.1, h.2.2.2⟩

/-- C9: whatever the parsed judgment contains — even its own `sentence_id`
or `user_text` entries — the merged response's `sentence_id` is the
request's sentence id and its `user_text` is the transcript: the two item
assignments overwrite unconditionally. -/
theorem merge_overwrites_grader_identifiers (env : Env)
    (sentence_id user_text : String) (ref : Sentence) (audio_bytes : List Nat)
    (kvs : List (String × JValue)) (tc gc : Nat)
    (href : find_sentence_by_id sentence_id = some ref)
    (haudio : audio_bytes ≠ [])
    (htr : transcribe_with_assemblyai env.aaiKey env.aai audio_bytes
      = (Except.ok user_text, tc))
    (hgr : grade_with_deepseek env.dsKey env.ds ref.text user_text
      = (Except.ok (JValue.obj kvs), gc)) :
    (evaluate env sentence_id audio_bytes).1
      = Except.ok (JValue.obj (mergedResponse kvs sentence_id user_text))
    ∧ dictGet (mergedResponse kvs sentence_id user_text) "sentence_id"
      = some (JValue.str sentence_id)
    ∧ dictGet (mergedResponse kvs sentence_id user_text) "user_text"
      = some (JValue.str user_text) := by
  have he := evaluate_success env sentence_id user_text ref audio_bytes kvs tc gc
    href haudio htr hgr
  exact ⟨by rw [he], mergedResponse_sentence_id kvs sentence_id user_text,
    mergedResponse_user_text kvs sentence_id user_text⟩

/-- C9 witness: the grader smuggles `sentence_id = "EVIL"` and
`user_text = "EVIL"` into its judgment, yet the response carries the
request's identifiers. -/
theorem merge_overwrites_grader_identifiers_witness :
    dictGet evilJudgment "sentence_id" = some (JValue.str "EVIL")
    ∧ (evaluate evilEnv "s1" [1]).1
      = Except.ok (JValue.obj (mergedResponse evilJudgment "s1" "Hola soy Ana"))
    ∧ dictGet (mergedResponse evilJudgment "s1" "Hola soy Ana") "sentence_id"
      = some (JValue.str "s1")
    ∧ dictGet (mergedResponse evilJudgment "s1" "Hola soy Ana") "user_text"
      = some (JValue.str "Hola soy Ana") := by
  have h := merge_overwrites_grader_identifiers evilEnv "s1" "Hola soy Ana" refS1 [1]
    evilJudgment 3 1 rfl (by decide) rfl rfl
  exact ⟨rfl, h.1, h.2.1, h.2.2⟩

/-- C7: a completed transcription returns the whitespace-trimmed `text`
field, and an empty trimmed transcript is a valid value, not an error:
`evaluate` still invokes the Grader, passing it the empty transcript. -/
theorem transcript_trimmed_and_empty_valid (env : Env) (sentence_id : String)
    (ref : Sentence) (audio_bytes : List Nat) (k t : String) (data : JValue)
    (href : find_sentence_by_id sentence_id = some ref)
    (haudio : audio_bytes ≠ [])
    (hkey : env.aaiKey = some k)
    (hsetup : setupOk env.aai)
    (h0 : env.aai.pollResp 0 = Except.ok data)
    (hst : jGet data "status" = some (JValue.str "completed"))
    (htx : jGet data "text" = some (JValue.str t)) :
    (transcribe_with_assemblyai env.aaiKey env.aai audio_bytes).1
      = Except.ok (pyStrip t)
    ∧ (pyStrip t = "" →
        (evaluate env sentence_id audio_bytes).2.graderCalled = true
        ∧ (evaluate env sentence_id audio_bytes).2.graderUserText = some "") := by
  have htr : transcribe_with_assemblyai env.aaiKey env.aai audio_bytes
      = (Except.ok (pyStrip t), 3) := by
    rw [hkey, transcribe_eq_pollLoop k env.aai audio_bytes hsetup]
    exact pollLoop_completed_text env.aai.pollResp 0 29 2 data t h0 hst htx
  constructor
  · rw [htr]
  · intro hempty
    rw [hempty] at htr
    simp only [evaluate, href, if_neg haudio, htr]
    rcases hg : grade_with_deepseek env.dsKey env.ds ref.text "" with ⟨res, gc⟩
    cases res with
    | error e => exact ⟨rfl, rfl⟩
    | ok v => cases v <;> exact ⟨rfl, rfl⟩

/-- C7 witness: a transcript of pure whitespace trims to the empty string
and the Grader is still invoked, with the empty transcript. -/
theorem transcript_trimmed_and_empty_valid_witness :
    (transcribe_with_assemblyai silentEnv.aaiKey silentEnv.aai [1]).1
      = Except.ok (pyStrip "   ")
    ∧ ((evaluate silentEnv "s1" [1]).2.graderCalled = true
       ∧ (evaluate silentEnv "s1" [1]).2.graderUserText = some "") := by
  have h := transcript_trimmed_and_empty_valid silentEnv "s1" refS1 [1] "aai-key" "   "
    (JValue.obj [("status", JValue.str "completed"), ("text", JValue.str "   ")])
    rfl (by decide) rfl ⟨⟨_, rfl, rfl⟩, ⟨_, rfl, rfl⟩⟩ rfl rfl rfl
  exact ⟨h.1, h.2 rfl⟩

/-- C8: with the provider API key absent, the dependent operation fails at
the very start of its invocation with the missing-key error and zero network
calls, and `evaluate` surfaces this through the outward error taxonomy (a
500 transcription/grading failure) rather than crashing elsewhere. -/
theorem missing_api_key_fail_fast :
    (∀ (env : AAIEnv) (audio_bytes : List Nat),
        transcribe_with_assemblyai none env audio_bytes
          = (Except.error TError.missingKey, 0))
    ∧ (∀ (oracle : String → String → DSReply) (ref_text user_text : String),
        grade_with_deepseek none oracle ref_text user_text
          = (Except.error GError.missingKey, 0))
    ∧ (∀ (env : Env) (sentence_id : String) (ref : Sentence) (audio_bytes : List Nat),
        env.aaiKey = none → find_sentence_by_id sentence_id = some ref →
        audio_bytes ≠ [] →
        evaluate env sentence_id audio_bytes
          = (Except.error EvalError.transcriptionFailed, ⟨true, 0, false, 0, none⟩))
    ∧ (∀ (env : Env) (sentence_id : String) (ref : Sentence) (audio_bytes : List Nat)
          (user_text : String) (tc : Nat),
        env.dsKey = none → find_sentence_by_id sentence_id = some ref →
        audio_bytes ≠ [] →
        transcribe_with_assemblyai env.aaiKey env.aai audio_bytes
          = (Except.ok user_text, tc) →
        evaluate env sentence_id audio_bytes
          = (Except.error EvalError.gradingFailed,
             ⟨true, tc, true, 0, some user_text⟩)) := by
  refine ⟨fun env audio_bytes => rfl, fun oracle r u => rfl, ?_, ?_⟩
  · intro env sid ref audio hkey href haudio
    have htr : transcribe_with_assemblyai env.aaiKey env.aai audio
        = (Except.error TError.missingKey, 0) := by rw [hkey]; rfl
    simp only [evaluate, href, if_neg haudio, htr]
  · intro env sid ref audio t tc hkey href haudio htr
    have hgr : grade_with_deepseek env.dsKey env.ds ref.text t
        = (Except.error GError.missingKey, 0) := by rw [hkey]; rfl
    simp only [evaluate, href, if_neg haudio, htr, hgr]

/-- C8 witness: all four parts at concrete inputs — each missing key fails
with zero network calls to its provider, and `evaluate` wraps the failure. -/
theorem missing_api_key_fail_fast_witness :
    transcribe_with_assemblyai none happyAAI [1]
      = (Except.error TError.missingKey, 0)
    ∧ grade_with_deepseek none (fun _ _ => DSReply.badJson) "a" "b"
      = (Except.error GError.missingKey, 0)
    ∧ evaluate noAaiKeyEnv "s1" [1]
      = (Except.error EvalError.transcriptionFailed, ⟨true, 0, false, 0, none⟩)
    ∧ evaluate noDsKeyEnv "s1" [1]
      = (Except.error EvalError.gradingFailed,
         ⟨true, 3, true, 0, some "Hola soy Ana"⟩) :=
  ⟨missing_api_key_fail_fast.1 happyAAI [1],
   missing_api_key_fail_fast.2.1 (fun _ _ => DSReply.badJson) "a" "b",
   missing_api_key_fail_fast.2.2.1 noAaiKeyEnv "s1" refS1 [1] rfl rfl (by decide),
   missing_api_key_fail_fast.2.2.2 noDsKeyEnv "s1" refS1 [1] "Hola soy Ana" 3
     rfl rfl (by decide) rfl⟩
